import Mathlib

/-!
Verification of the data-reader layer of the `spai` repository
(`spai/data/readers.py`), as a shallow embedding in Lean 4.

The embedding models:
* CSV rows as ordered association lists from column name to cell value
  (mirroring Python `dict` rows produced by `csv.DictReader`);
* `pathlib.PurePosixPath` values as a flag for absoluteness plus the list of
  path components.  Joining, `parent`, `relative_to` and `str()` follow
  pathlib's purely *lexical* semantics: `.` components are dropped on parse,
  `..` components are kept literally, `relative_to` is a component-prefix
  check that never resolves `..`;
* the filesystem (and the LMDB blob store) as a finite association list from
  paths to file contents; a file's content either is an image, is CSV text
  (already split into records), or is undecodable bytes;
* the PIL image collaborator: `Image.open` succeeds exactly on image
  contents (else the failure kind is `DecodeError`; a missing file is
  `NotFound`), `convert "L"` yields a 1-channel image and `convert "RGB"` a
  3-channel image, both preserving width and height; a `with Image.open(s)`
  block does *not* close a caller-supplied stream `s` on exit (PIL only
  closes file pointers it opened itself);
* the Python `csv.DictReader`: the first record is the header, each further
  record is zipped with the header into a row; a file with no records at all
  yields no rows (the reader is lenient and has no parse-error outcome);
* exception kinds as an `Err` inductive (`FileNotFoundError` ↦ `notFound`,
  `PIL.UnidentifiedImageError` and friends ↦ `decodeError`,
  `ValueError` from `relative_to` ↦ `valueError`, `KeyError` from a missing
  row column ↦ `keyError`, `NotImplementedError` ↦ `notImplementedError`);
* the Blob-Store variant's per-call stream lifecycle as explicit
  `streamOpened` / `streamClosed` flags on the call result, and the
  `print` diagnostics of the filesystem variant as an explicit list of
  printed lines.
-/

deriving instance DecidableEq for Except

namespace Spai

/-- A decoded raster image: its pixel dimensions and channel depth.
Pixel data is opaque to this layer (the codec is an external collaborator). -/
structure PILImage where
  width : Nat
  height : Nat
  channels : Nat
deriving DecidableEq, Repr

/-- Content stored at a path/key of a backend: a decodable image, CSV text
(already split into its comma-delimited records), or bytes that decode as
neither. -/
inductive FileContent where
  | image (img : PILImage)
  | csv (records : List (List String))
  | invalid
deriving DecidableEq, Repr

/-- Exception kinds raised by the reader layer (see module docstring for the
Python exception each constructor stands for).  `parseError` is the kind the
spec predicts for structurally invalid CSV; the embedding shows it is never
produced. -/
inductive Err where
  | notFound
  | decodeError
  | parseError
  | valueError
  | keyError
  | notImplementedError
deriving DecidableEq, Repr

/-- Model of `pathlib.PurePosixPath`: whether the path is absolute, and its
components (pathlib's `parts`, without the leading `/` anchor). -/
structure PurePath where
  absolute : Bool
  parts : List String
deriving DecidableEq, Repr

/-- Splitting a character list at `/` separators (the recursion behind
`parsePath`; second argument is the current piece, reversed). -/
def splitSlashAux : List Char → List Char → List String
  | [], cur => [String.mk cur.reverse]
  | c :: rest, cur =>
    if c = '/' then String.mk cur.reverse :: splitSlashAux rest []
    else splitSlashAux rest (c :: cur)

/-- A string's pieces between `/` separators (as `s.split("/")` yields). -/
def splitSlash (s : String) : List String :=
  splitSlashAux s.data []

/-- Whether a path string is absolute (starts with `/`). -/
def startsWithSlash (s : String) : Bool :=
  match s.data with
  | [] => false
  | c :: _ => c = '/'

/-- Parsing a path string, as `pathlib.PurePosixPath(s)` does: absolute iff
the string starts with `/`; components are the slash-separated pieces with
empty pieces and `.` dropped (`..` is kept literally). -/
def parsePath (s : String) : PurePath :=
  ⟨startsWithSlash s, (splitSlash s).filter (fun c => decide (c ≠ ("") ∧ c ≠ (".")))⟩

/-- Path join, as pathlib's `/` operator: joining with an absolute path
discards the left operand; otherwise components are appended. -/
def PurePath.join (p q : PurePath) : PurePath :=
  if q.absolute then q else ⟨p.absolute, p.parts ++ q.parts⟩

/-- `p / s` where `s` is a raw string, as in `self.root_path / path`. -/
def PurePath.joinStr (p : PurePath) (s : String) : PurePath :=
  p.join (parsePath s)

/-- Pathlib's `.parent`: drops the last component (lexically). -/
def PurePath.parent (p : PurePath) : PurePath :=
  ⟨p.absolute, p.parts.dropLast⟩

/-- Whether the first component list is an initial segment of the second
(the lexical check behind pathlib's `relative_to`). -/
def partsPrefix : List String → List String → Bool
  | [], _ => true
  | _ :: _, [] => false
  | a :: as, b :: bs => if a = b then partsPrefix as bs else false

/-- Pathlib's `relative_to`: a purely lexical prefix check.  Returns `none`
(modelling the raised `ValueError`) when the anchors differ or `base`'s
components are not a prefix of `p`'s; `..` components are never resolved. -/
def PurePath.relative_to (p base : PurePath) : Option PurePath :=
  if p.absolute = base.absolute ∧ partsPrefix base.parts p.parts = true then
    some ⟨false, p.parts.drop base.parts.length⟩
  else none

/-- Pathlib's `str()` on a path (for the non-degenerate paths this layer
builds): the components joined by `/`, with a leading `/` when absolute. -/
def PurePath.render (p : PurePath) : String :=
  (if p.absolute then ("/") else ("")) ++ String.intercalate ("/") p.parts

/-- A CSV row: an ordered mapping from column name to cell value, as produced
by `csv.DictReader`. -/
abbrev Row := List (String × String)

/-- A storage backend (filesystem tree rooted anywhere, or LMDB blob store):
a finite assignment of paths to contents.  Lookup returns the first match. -/
abbrev FS := List (PurePath × FileContent)

/-- Python `dict` lookup `d[k]` / `k in d` on a row or specifier
(association-list lookup, first match wins). -/
def dictGet (d : List (String × String)) (k : String) : Option String :=
  match d with
  | [] => none
  | kv :: rest => if kv.1 = k then some kv.2 else dictGet rest k

/-- Embedding of `data_specifier_matches_entry` (readers.py, lines 173-178):
iterate the specifier's pairs; return `False` as soon as a key is absent from
the entry or mapped to a different value; otherwise return `True`. -/
def data_specifier_matches_entry (entry : Row) (specifier : List (String × String)) : Bool :=
  match specifier with
  | [] => true
  | kv :: rest =>
    match dictGet entry kv.1 with
    | none => false
    | some w => if w = kv.2 then data_specifier_matches_entry entry rest else false

/-- The comma-delimited records of a stored file when read as text.  Image or
undecodable binary contents are not given a CSV structure by this model (no
claim reads them as CSV); `csv.DictReader` itself would still parse such text
leniently, without a parse-error outcome. -/
def csvRecords : FileContent → List (List String)
  | .csv records => records
  | _ => []

/-- Model of `csv.DictReader` over a file's records: the first record is the
header; every further record is zipped with the header into a row.  A file
with no records (in particular an empty file, which has no header row) yields
no rows at all — the reader has no failure outcome. -/
def dictReaderRows : List (List String) → List Row
  | [] => []
  | header :: rest => rest.map (fun r => header.zip r)

/-- Model of `PIL.Image.open` on a resource's bytes: succeeds exactly when the
content is an image (else the raised kind is `DecodeError`). -/
def decodeImage : FileContent → Option PILImage
  | .image img => some img
  | _ => none

/-- Model of `PIL.Image.convert`: `"L"` produces a 1-channel image, `"RGB"` a
3-channel image; width and height are preserved (image collaborator
contract). -/
def PILImage.convert (img : PILImage) (mode : String) : PILImage :=
  if mode = ("L") then ⟨img.width, img.height, 1⟩
  else if mode = ("RGB") then ⟨img.width, img.height, 3⟩
  else img

/-- First-match lookup of a path in a backend (the OS open / store get). -/
def fsGet (fs : FS) (p : PurePath) : Option FileContent :=
  match fs with
  | [] => none
  | e :: rest => if e.1 = p then some e.2 else fsGet rest p

/-- Result of a call that may also print diagnostic lines (the filesystem
variant's `print(f"Failed to read: {path}")` before re-raising). -/
structure LoadResult where
  result : Except Err PILImage
  printed : List String
deriving Repr

/-- A backend-native handle returned by `load_file_path_or_stream`: either a
resolved filesystem path or an open stream onto stored content. -/
inductive Handle where
  | path (p : PurePath)
  | stream (c : FileContent)
deriving DecidableEq, Repr

/-- Embedding of the base class `DataReader.load_file_path_or_stream`
(readers.py, lines 56-57): unconditionally raises `NotImplementedError`. -/
def DataReader.load_file_path_or_stream (path : String) : Except Err Handle :=
  .error .notImplementedError

namespace FileSystemReader

/-- Embedding of `FileSystemReader.read_csv_file` (readers.py, lines 66-70):
open `root_path/path` for reading (raising `FileNotFoundError` when absent),
then collect the rows of a `csv.DictReader` over it. -/
def read_csv_file (root : PurePath) (fs : FS) (path : String) : Except Err (List Row) :=
  match fsGet fs (root.joinStr path) with
  | none => .error .notFound
  | some c => .ok (dictReaderRows (csvRecords c))

/-- Embedding of `FileSystemReader.get_image_size` (readers.py, lines 72-75):
`Image.open(root_path/path)` and read `.size` as a `(width, height)` pair. -/
def get_image_size (root : PurePath) (fs : FS) (path : String) : Except Err (Nat × Nat) :=
  match fsGet fs (root.joinStr path) with
  | none => .error .notFound
  | some c =>
    match decodeImage c with
    | none => .error .decodeError
    | some img => .ok (img.width, img.height)

/-- Embedding of `FileSystemReader.load_image` (readers.py, lines 77-91):
open `root_path/path`, convert to `"L"` when `channels == 1` and to `"RGB"`
otherwise; on any exception print `Failed to read: {path}` and re-raise. -/
def load_image (root : PurePath) (fs : FS) (path : String) (channels : Nat) : LoadResult :=
  match fsGet fs (root.joinStr path) with
  | none => ⟨.error .notFound, [("Failed to read: ") ++ path]⟩
  | some c =>
    match decodeImage c with
    | none => ⟨.error .decodeError, [("Failed to read: ") ++ path]⟩
    | some img =>
      ⟨.ok (if channels = 1 then img.convert ("L") else img.convert ("RGB")), []⟩

/-- Body of the `for row in csv_data` loop of
`FileSystemReader.load_signals_from_csv` (readers.py, lines 108-111) for one
surviving row: read `row[column_name]` (a missing column raises `KeyError`),
join it to the CSV's parent directory, re-base the result relative to the
root (a failing `relative_to` raises `ValueError`), and load the image. -/
def processRow (root : PurePath) (fs : FS) (csv_path column_name : String)
    (channels : Nat) (row : Row) : Except Err PILImage :=
  match dictGet row column_name with
  | none => .error .keyError
  | some v =>
    let signal_path := ((root.joinStr csv_path).parent).joinStr v
    match signal_path.relative_to root with
    | none => .error .valueError
    | some rel => (load_image root fs rel.render channels).result

end FileSystemReader

/-- Whether a row survives the specifier filter in `load_signals_from_csv`
(both variants, readers.py lines 105 and 163): rows are skipped exactly when
a specifier is given and `data_specifier_matches_entry` rejects the row. -/
def keepRow (data_specifier : Option (List (String × String))) (row : Row) : Bool :=
  match data_specifier with
  | none => true
  | some s => data_specifier_matches_entry row s

/-- The `for row in csv_data` loop shared by both variants of
`load_signals_from_csv` (readers.py, lines 102-113 and 160-170): skip rows
rejected by the specifier, process each surviving row in file order, append
its image, and abort on the first raised error. -/
def signalsLoop (keep : Row → Bool) (proc : Row → Except Err PILImage) :
    List Row → Except Err (List PILImage)
  | [] => .ok []
  | row :: rest =>
    if keep row then
      match proc row with
      | .error e => .error e
      | .ok img =>
        match signalsLoop keep proc rest with
        | .error e => .error e
        | .ok imgs => .ok (img :: imgs)
    else signalsLoop keep proc rest

/-- Embedding of `FileSystemReader.load_signals_from_csv` (readers.py, lines
93-113): read the CSV, then run the row loop with this variant's per-row
path resolution and image load. -/
def FileSystemReader.load_signals_from_csv (root : PurePath) (fs : FS)
    (csv_path column_name : String) (channels : Nat)
    (data_specifier : Option (List (String × String))) : Except Err (List PILImage) :=
  match read_csv_file root fs csv_path with
  | .error e => .error e
  | .ok rows => signalsLoop (keepRow data_specifier)
      (processRow root fs csv_path column_name channels) rows

/-- Embedding of `FileSystemReader.load_file_path_or_stream` (readers.py,
lines 115-116): return the resolved path `root_path / path`. -/
def FileSystemReader.load_file_path_or_stream (root : PurePath) (path : String) :
    Except Err Handle :=
  .ok (.path (root.joinStr path))

/-- Modelled from the spec: the blob-store collaborator
`filestorage.LMDBFileStorage.open_file(path, mode)`, whose source module
(`spai/data/filestorage.py`) is not part of this snapshot.  Per the spec's
collaborator contract it returns a stream over the blob stored at the given
key (failing with a `NotFound` kind when the key is absent); the stream
supports sequential read and explicit close.  The store is a finite
assignment of keys to contents and the returned stream is identified with
the content it reads. -/
def LMDBFileStorage.open_file (storage : FS) (path : String) : Except Err FileContent :=
  match fsGet storage (parsePath path) with
  | none => .error .notFound
  | some c => .ok c

/-- Result of one Blob-Store reader call, with the lifecycle of the stream
the call opened from the storage: whether a stream was opened, and whether it
was closed again before the call returned.  A `with Image.open(stream)` block
does not close the caller-supplied `stream` on exit (PIL closes only file
pointers it opened itself), so only an explicit `stream.close()` that is
actually reached sets `streamClosed`. -/
structure LMDBCallResult (α : Type) where
  result : Except Err α
  streamOpened : Bool
  streamClosed : Bool
  printed : List String
deriving Repr

namespace LMDBFileStorageReader

/-- Embedding of `LMDBFileStorageReader.read_csv_file` (readers.py, lines
125-129): open a text-mode stream from the storage and collect the rows of a
`csv.DictReader` over it. -/
def read_csv_file (storage : FS) (path : String) : Except Err (List Row) :=
  match LMDBFileStorage.open_file storage path with
  | .error e => .error e
  | .ok c => .ok (dictReaderRows (csvRecords c))

/-- Embedding of `LMDBFileStorageReader.get_image_size` (readers.py, lines
131-135): open a binary-mode stream, read `.size` inside a
`with Image.open(stream)` block, and return.  The source contains no
`stream.close()` call, and the `with` block does not close the
caller-supplied stream, so the opened stream is never closed — neither when
decoding fails nor when it succeeds. -/
def get_image_size (storage : FS) (path : String) : LMDBCallResult (Nat × Nat) :=
  match LMDBFileStorage.open_file storage path with
  | .error e => ⟨.error e, false, false, []⟩
  | .ok c =>
    match decodeImage c with
    | none => ⟨.error .decodeError, true, false, []⟩
    | some img => ⟨.ok (img.width, img.height), true, false, []⟩

/-- Embedding of `LMDBFileStorageReader.load_image` (readers.py, lines
137-149): open a binary-mode stream, decode and convert inside a
`with Image.open(stream)` block, then `stream.close()` and return the image.
The `stream.close()` on line 145 is straight-line code after the `with`
block, not a `finally` handler: when decoding raises, the exception
propagates past it and the stream stays open; it is reached only on
success.  There is no `try/except` here, so nothing is printed on failure. -/
def load_image (storage : FS) (path : String) (channels : Nat) : LMDBCallResult PILImage :=
  match LMDBFileStorage.open_file storage path with
  | .error e => ⟨.error e, false, false, []⟩
  | .ok c =>
    match decodeImage c with
    | none => ⟨.error .decodeError, true, false, []⟩
    | some img =>
      ⟨.ok (if channels = 1 then img.convert ("L") else img.convert ("RGB")), true, true, []⟩

/-- Body of the `for row in csv_data` loop of
`LMDBFileStorageReader.load_signals_from_csv` (readers.py, lines 166-168) for
one surviving row: read `row[column_name]` (a missing column raises
`KeyError`), join it to the CSV path's parent directory, render the result
back to a string (`str(...)`), and load the image — no re-basing against any
root. -/
def processRow (storage : FS) (csv_path column_name : String)
    (channels : Nat) (row : Row) : Except Err PILImage :=
  match dictGet row column_name with
  | none => .error .keyError
  | some v =>
    let signal_path := (((parsePath csv_path).parent).joinStr v).render
    (load_image storage signal_path channels).result

/-- Embedding of `LMDBFileStorageReader.load_signals_from_csv` (readers.py,
lines 151-170): read the CSV, then run the row loop with this variant's
per-row path resolution and image load. -/
def load_signals_from_csv (storage : FS) (csv_path column_name : String)
    (channels : Nat) (data_specifier : Option (List (String × String))) :
    Except Err (List PILImage) :=
  match read_csv_file storage csv_path with
  | .error e => .error e
  | .ok rows => signalsLoop (keepRow data_specifier)
      (processRow storage csv_path column_name channels) rows

/-- `LMDBFileStorageReader` defines no `load_file_path_or_stream` of its own
(readers.py, lines 119-170 contain no such method), so a call dispatches to
the inherited base implementation `DataReader.load_file_path_or_stream`
(readers.py, lines 56-57), which raises `NotImplementedError`. -/
def load_file_path_or_stream (storage : FS) (path : String) : Except Err Handle :=
  DataReader.load_file_path_or_stream path

end LMDBFileStorageReader

/-- Whether an exception-free result was produced (`Except.ok`). -/
def isOkE {α : Type} : Except Err α → Bool
  | .ok _ => true
  | .error _ => false

/-! Helper lemmas shared by the claim theorems. -/

/-- The row matcher accepts exactly the rows mapping every specifier key to
the required value. -/
theorem matches_iff (R : Row) (S : List (String × String)) :
    data_specifier_matches_entry R S = true ↔ ∀ kv ∈ S, dictGet R kv.1 = some kv.2 := by
  induction S with
  | nil => simp [data_specifier_matches_entry]
  | cons kv rest ih =>
    cases h : dictGet R kv.1 with
    | none =>
      simp only [data_specifier_matches_entry, h]
      constructor
      · intro hfalse
        simp at hfalse
      · intro hall
        have hkv := hall kv (List.mem_cons_self _ _)
        rw [h] at hkv
        simp at hkv
    | some w =>
      simp only [data_specifier_matches_entry, h]
      by_cases hw : w = kv.2
      · subst hw
        rw [if_pos rfl, ih]
        constructor
        · intro hrest kv2 hkv2
          rcases List.mem_cons.mp hkv2 with he | hm
          · subst he; exact h
          · exact hrest kv2 hm
        · intro hall kv2 hm
          exact hall kv2 (List.mem_cons_of_mem _ hm)
      · rw [if_neg hw]
        constructor
        · intro hfalse
          simp at hfalse
        · intro hall
          have hkv := hall kv (List.mem_cons_self _ _)
          rw [h] at hkv
          exact absurd (Option.some.inj hkv) hw

/-- A component list is a lexical prefix of itself extended by anything. -/
theorem partsPrefix_append_self (l t : List String) : partsPrefix l (l ++ t) = true := by
  induction l with
  | nil => rfl
  | cons a as ih => simp [partsPrefix, ih]

/-- The row loop returns exactly one image per surviving row, in the
original row order, when every surviving row's processing succeeds. -/
theorem signalsLoop_ok (keep : Row → Bool) (proc : Row → Except Err PILImage)
    (rows : List Row)
    (h : ∀ r ∈ rows.filter keep, isOkE (proc r) = true) :
    ∃ imgs, signalsLoop keep proc rows = .ok imgs
      ∧ List.Forall₂ (fun r img => proc r = .ok img) (rows.filter keep) imgs := by
  induction rows with
  | nil => exact ⟨[], rfl, List.Forall₂.nil⟩
  | cons row rest ih =>
    by_cases hk : keep row
    · have hfilter : (row :: rest).filter keep = row :: rest.filter keep := by
        simp [List.filter_cons, hk]
      rw [hfilter] at h ⊢
      have hrow := h row (List.mem_cons_self _ _)
      cases hp : proc row with
      | error e =>
        rw [hp] at hrow
        simp [isOkE] at hrow
      | ok img =>
        obtain ⟨imgs, hloop, hfa⟩ := ih (fun r hr => h r (List.mem_cons_of_mem _ hr))
        refine ⟨img :: imgs, ?_, List.Forall₂.cons hp hfa⟩
        simp [signalsLoop, hk, hp, hloop]
    · have hfilter : (row :: rest).filter keep = rest.filter keep := by
        simp [List.filter_cons, hk]
      rw [hfilter] at h ⊢
      obtain ⟨imgs, hloop, hfa⟩ := ih h
      exact ⟨imgs, by simp [signalsLoop, hk, hloop], hfa⟩

/-- A successful filesystem `load_image` means the resolved path held an
image, and the returned image is its channel conversion. -/
theorem fs_load_image_ok (root : PurePath) (fs : FS) (path : String)
    (channels : Nat) (imgF : PILImage)
    (h : (FileSystemReader.load_image root fs path channels).result = .ok imgF) :
    ∃ img, fsGet fs (root.joinStr path) = some (.image img)
      ∧ imgF = (if channels = 1 then img.convert ("L") else img.convert ("RGB")) := by
  unfold FileSystemReader.load_image at h
  cases hc : fsGet fs (root.joinStr path) with
  | none => rw [hc] at h; simp at h
  | some c =>
    rw [hc] at h
    cases c with
    | image i =>
      refine ⟨i, rfl, ?_⟩
      simp [decodeImage] at h
      exact h.symm
    | csv r => simp [decodeImage] at h
    | invalid => simp [decodeImage] at h

/-- A successful blob-store `load_image` means the key held an image, and
the returned image is its channel conversion. -/
theorem lmdb_load_image_ok (storage : FS) (path : String)
    (channels : Nat) (imgL : PILImage)
    (h : (LMDBFileStorageReader.load_image storage path channels).result = .ok imgL) :
    ∃ img, fsGet storage (parsePath path) = some (.image img)
      ∧ imgL = (if channels = 1 then img.convert ("L") else img.convert ("RGB")) := by
  unfold LMDBFileStorageReader.load_image LMDBFileStorage.open_file at h
  cases hc : fsGet storage (parsePath path) with
  | none => rw [hc] at h; simp at h
  | some c =>
    rw [hc] at h
    cases c with
    | image i =>
      refine ⟨i, rfl, ?_⟩
      simp [decodeImage] at h
      exact h.symm
    | csv r => simp [decodeImage] at h
    | invalid => simp [decodeImage] at h

/-- Channel conversion preserves the image's width. -/
theorem convert_width (img : PILImage) (m : String) : (img.convert m).width = img.width := by
  unfold PILImage.convert
  split
  · rfl
  · split <;> rfl

/-- Channel conversion preserves the image's height. -/
theorem convert_height (img : PILImage) (m : String) : (img.convert m).height = img.height := by
  unfold PILImage.convert
  split
  · rfl
  · split <;> rfl

/-! Claim theorems. -/

/-- Claim C1 — code bug exhibit.  The claim: for the Blob-Store (LMDB)
reader, after every `load_image` or `get_image_size` call the stream opened
from the storage for that call is closed before the call returns, on every
exit path.  The code violates this: in `load_image` the `stream.close()`
after the `with` block is skipped when decoding raises `DecodeError`, and
`get_image_size` contains no `stream.close()` at all, so its stream is never
closed even on success.  This theorem evaluates the embedding at both
failing inputs: an invalid blob makes `load_image` return `DecodeError` with
its stream opened but not closed, and a valid blob makes `get_image_size`
succeed with its stream opened but not closed. -/
theorem claim_C1_stream_left_open :
    ((LMDBFileStorageReader.load_image [((parsePath ("bad.png")), .invalid)] ("bad.png") 1).result
        = .error .decodeError
      ∧ (LMDBFileStorageReader.load_image [((parsePath ("bad.png")), .invalid)] ("bad.png") 1).streamOpened
        = true
      ∧ (LMDBFileStorageReader.load_image [((parsePath ("bad.png")), .invalid)] ("bad.png") 1).streamClosed
        = false)
    ∧ ((LMDBFileStorageReader.get_image_size [((parsePath ("ok.png")), .image ⟨2, 3, 3⟩)] ("ok.png")).result
        = .ok (2, 3)
      ∧ (LMDBFileStorageReader.get_image_size [((parsePath ("ok.png")), .image ⟨2, 3, 3⟩)] ("ok.png")).streamOpened
        = true
      ∧ (LMDBFileStorageReader.get_image_size [((parsePath ("ok.png")), .image ⟨2, 3, 3⟩)] ("ok.png")).streamClosed
        = false) := by
  decide

/-- Claim C2: for every row `R` and specifier `S`,
`data_specifier_matches_entry R S` is true iff every `(k, v)` in `S` has `k`
present in `R` with `R[k]` equal to `v` (exact string equality); in
particular an empty specifier matches every row.  The function is total —
an absent key yields `false`, never an error. -/
theorem claim_C2_matcher (R : Row) (S : List (String × String)) :
    (data_specifier_matches_entry R S = true ↔
      ∀ kv ∈ S, dictGet R kv.1 = some kv.2)
    ∧ data_specifier_matches_entry R [] = true :=
  ⟨matches_iff R S, rfl⟩

/-- Claim C5 counterexample.  The claim: both reader variants implement
`load_file_path_or_stream`, the Blob-Store (LMDB) variant returning an open
stream rather than failing with an unimplemented-operation error.  In the
code `LMDBFileStorageReader` does not override the method, so the call
dispatches to the `DataReader` base and raises `NotImplementedError`: at the
concrete key `images/a.png` (present in the storage) the call fails with
the unimplemented-operation error instead of returning a stream. -/
theorem claim_C5_counterexample :
    LMDBFileStorageReader.load_file_path_or_stream
      [((parsePath ("images/a.png")), .image ⟨2, 2, 3⟩)] ("images/a.png")
    = .error .notImplementedError := rfl

/-- Claim C5 (amended): the Filesystem variant implements
`load_file_path_or_stream`, returning the resolved path `root/path`; the
Blob-Store (LMDB) variant does not override it, so for every path it
dispatches to the inherited `DataReader` base implementation and fails with
the unimplemented-operation (`NotImplementedError`) error rather than
returning an open stream. -/
theorem claim_C5_amended (root : PurePath) (storage : FS) (path : String) :
    FileSystemReader.load_file_path_or_stream root path = .ok (.path (root.joinStr path))
    ∧ LMDBFileStorageReader.load_file_path_or_stream storage path
        = DataReader.load_file_path_or_stream path
    ∧ LMDBFileStorageReader.load_file_path_or_stream storage path
        = .error .notImplementedError :=
  ⟨rfl, rfl, rfl⟩

/-- Claim C6 counterexample.  The claim: `read_csv_file` fails with a
`ParseError`-kind error (rather than succeeding, e.g. with an empty
sequence) when the file has no header row.  In the code `csv.DictReader` is
lenient: on a file with no records at all — hence no header row — it yields
no rows, so both variants succeed with the empty sequence instead of
raising. -/
theorem claim_C6_counterexample :
    FileSystemReader.read_csv_file (parsePath ("/R"))
        [((parsePath ("/R/empty.csv")), .csv [])] ("empty.csv")
      = .ok []
    ∧ LMDBFileStorageReader.read_csv_file
        [((parsePath ("empty.csv")), .csv [])] ("empty.csv")
      = .ok [] := by
  decide

/-- Claim C6 (amended): for both reader variants `read_csv_file` fails with
a `NotFound`-kind error when the path does not resolve to an existing
resource; but CSV parsing is lenient — a file with no header row yields the
empty row sequence, and neither variant can ever fail with a
`ParseError`-kind error. -/
theorem claim_C6_amended (root : PurePath) (fs storage : FS) (path : String)
    (hfs : fsGet fs (root.joinStr path) = none)
    (hst : fsGet storage (parsePath path) = none) :
    FileSystemReader.read_csv_file root fs path = .error .notFound
    ∧ LMDBFileStorageReader.read_csv_file storage path = .error .notFound
    ∧ (∀ (root2 : PurePath) (fs2 : FS) (path2 : String),
        FileSystemReader.read_csv_file root2 fs2 path2 ≠ .error .parseError)
    ∧ (∀ (storage2 : FS) (path2 : String),
        LMDBFileStorageReader.read_csv_file storage2 path2 ≠ .error .parseError) := by
  refine ⟨?_, ?_, ?_, ?_⟩
  · unfold FileSystemReader.read_csv_file
    rw [hfs]
  · unfold LMDBFileStorageReader.read_csv_file LMDBFileStorage.open_file
    rw [hst]
  · intro root2 fs2 path2
    unfold FileSystemReader.read_csv_file
    cases fsGet fs2 (root2.joinStr path2) <;> simp
  · intro storage2 path2
    unfold LMDBFileStorageReader.read_csv_file LMDBFileStorage.open_file
    cases fsGet storage2 (parsePath path2) <;> simp

/-- Claim C6 amended-theorem witness: both variants on an empty backend and
the path `missing.csv`. -/
theorem claim_C6_witness :
    FileSystemReader.read_csv_file (parsePath ("/R")) [] ("missing.csv") = .error .notFound
    ∧ LMDBFileStorageReader.read_csv_file [] ("missing.csv") = .error .notFound
    ∧ (∀ (root2 : PurePath) (fs2 : FS) (path2 : String),
        FileSystemReader.read_csv_file root2 fs2 path2 ≠ .error .parseError)
    ∧ (∀ (storage2 : FS) (path2 : String),
        LMDBFileStorageReader.read_csv_file storage2 path2 ≠ .error .parseError) :=
  claim_C6_amended (parsePath ("/R")) [] [] ("missing.csv") (by decide) (by decide)

/-- Claim C7 counterexample.  The claim: for both reader variants, a
`load_image` decode failure is surfaced with the offending path attached
(reported alongside the error before propagation).  The Blob-Store variant's
`load_image` has no `try/except` and prints nothing: at a key holding
undecodable bytes it propagates `DecodeError` with no diagnostic output, so
the path is not attached. -/
theorem claim_C7_counterexample :
    (LMDBFileStorageReader.load_image [((parsePath ("b.png")), .invalid)] ("b.png") 1).result
      = .error .decodeError
    ∧ (LMDBFileStorageReader.load_image [((parsePath ("b.png")), .invalid)] ("b.png") 1).printed
      = [] := by
  decide

/-- Claim C7 (amended): when `load_image` hits undecodable bytes the
failure always propagates to the caller — it is never silently skipped — in
both variants; the Filesystem variant additionally reports
`Failed to read: {path}` (the offending path) before re-raising, while the
Blob-Store variant propagates the `DecodeError` without attaching the
path. -/
theorem claim_C7_amended (root : PurePath) (fs storage : FS) (path : String)
    (channels : Nat) (c d : FileContent)
    (hc : fsGet fs (root.joinStr path) = some c) (hdc : decodeImage c = none)
    (hd : fsGet storage (parsePath path) = some d) (hdd : decodeImage d = none) :
    (FileSystemReader.load_image root fs path channels).result = .error .decodeError
    ∧ (FileSystemReader.load_image root fs path channels).printed
        = [("Failed to read: ") ++ path]
    ∧ (LMDBFileStorageReader.load_image storage path channels).result = .error .decodeError
    ∧ (LMDBFileStorageReader.load_image storage path channels).printed = [] := by
  unfold FileSystemReader.load_image LMDBFileStorageReader.load_image LMDBFileStorage.open_file
  simp only [hc, hd, hdc, hdd]
  exact ⟨trivial, trivial, trivial, trivial⟩

/-- Claim C7 amended-theorem witness: both backends hold undecodable bytes
at `b2.png`. -/
theorem claim_C7_witness :
    (FileSystemReader.load_image (parsePath ("/R"))
        [((parsePath ("/R/b2.png")), .invalid)] ("b2.png") 1).result = .error .decodeError
    ∧ (FileSystemReader.load_image (parsePath ("/R"))
        [((parsePath ("/R/b2.png")), .invalid)] ("b2.png") 1).printed
        = [("Failed to read: ") ++ ("b2.png")]
    ∧ (LMDBFileStorageReader.load_image [((parsePath ("b2.png")), .invalid)] ("b2.png") 1).result
        = .error .decodeError
    ∧ (LMDBFileStorageReader.load_image [((parsePath ("b2.png")), .invalid)] ("b2.png") 1).printed
        = [] :=
  claim_C7_amended (parsePath ("/R")) [((parsePath ("/R/b2.png")), .invalid)]
    [((parsePath ("b2.png")), .invalid)] ("b2.png") 1 .invalid .invalid
    (by decide) (by decide) (by decide) (by decide)

/-- Claim C3: for both reader variants, if the CSV parses to a row list of
which exactly the specifier-matching rows survive (`rows.filter`; all rows
when the specifier is unset, since `keepRow none` is constantly true), and
every surviving row's referenced image loads successfully, then
`load_signals_from_csv` returns exactly one image per surviving row, in the
original row order (`List.Forall₂` pairs the surviving rows with the
returned images in order). -/
theorem claim_C3_signal_count_order (root : PurePath) (fs storage : FS)
    (csv_path column_name : String) (channels : Nat)
    (ds : Option (List (String × String))) (rowsF rowsL : List Row)
    (hF : FileSystemReader.read_csv_file root fs csv_path = .ok rowsF)
    (hFok : ∀ r ∈ rowsF.filter (keepRow ds),
      isOkE (FileSystemReader.processRow root fs csv_path column_name channels r) = true)
    (hL : LMDBFileStorageReader.read_csv_file storage csv_path = .ok rowsL)
    (hLok : ∀ r ∈ rowsL.filter (keepRow ds),
      isOkE (LMDBFileStorageReader.processRow storage csv_path column_name channels r) = true) :
    (∃ imgs,
      FileSystemReader.load_signals_from_csv root fs csv_path column_name channels ds
        = .ok imgs
      ∧ imgs.length = (rowsF.filter (keepRow ds)).length
      ∧ List.Forall₂
          (fun r img =>
            FileSystemReader.processRow root fs csv_path column_name channels r = .ok img)
          (rowsF.filter (keepRow ds)) imgs)
    ∧ (∃ imgs,
      LMDBFileStorageReader.load_signals_from_csv storage csv_path column_name channels ds
        = .ok imgs
      ∧ imgs.length = (rowsL.filter (keepRow ds)).length
      ∧ List.Forall₂
          (fun r img =>
            LMDBFileStorageReader.processRow storage csv_path column_name channels r = .ok img)
          (rowsL.filter (keepRow ds)) imgs) := by
  constructor
  · obtain ⟨imgs, hloop, hfa⟩ := signalsLoop_ok (keepRow ds)
      (FileSystemReader.processRow root fs csv_path column_name channels) rowsF hFok
    refine ⟨imgs, ?_, hfa.length_eq.symm, hfa⟩
    unfold FileSystemReader.load_signals_from_csv
    rw [hF]
    exact hloop
  · obtain ⟨imgs, hloop, hfa⟩ := signalsLoop_ok (keepRow ds)
      (LMDBFileStorageReader.processRow storage csv_path column_name channels) rowsL hLok
    refine ⟨imgs, ?_, hfa.length_eq.symm, hfa⟩
    unfold LMDBFileStorageReader.load_signals_from_csv
    rw [hL]
    exact hloop

/-- Claim C3 witness: a two-row CSV whose specifier matches exactly one row,
on both backends. -/
theorem claim_C3_witness :
    (∃ imgs,
      FileSystemReader.load_signals_from_csv (parsePath ("/R"))
          [ ((parsePath ("/R/d.csv")),
              .csv [[("seg_map"), ("cls")], [("a.png"), ("0")], [("b.png"), ("1")]]),
            ((parsePath ("/R/a.png")), .image ⟨5, 7, 3⟩),
            ((parsePath ("/R/b.png")), .image ⟨2, 3, 3⟩) ]
          ("d.csv") ("seg_map") 1 (some [(("cls"), ("1"))])
        = .ok imgs
      ∧ imgs.length
          = (([[(("seg_map"), ("a.png")), (("cls"), ("0"))],
               [(("seg_map"), ("b.png")), (("cls"), ("1"))]] : List Row).filter
              (keepRow (some [(("cls"), ("1"))]))).length
      ∧ List.Forall₂
          (fun r img =>
            FileSystemReader.processRow (parsePath ("/R"))
              [ ((parsePath ("/R/d.csv")),
                  .csv [[("seg_map"), ("cls")], [("a.png"), ("0")], [("b.png"), ("1")]]),
                ((parsePath ("/R/a.png")), .image ⟨5, 7, 3⟩),
                ((parsePath ("/R/b.png")), .image ⟨2, 3, 3⟩) ]
              ("d.csv") ("seg_map") 1 r = .ok img)
          (([[(("seg_map"), ("a.png")), (("cls"), ("0"))],
             [(("seg_map"), ("b.png")), (("cls"), ("1"))]] : List Row).filter
            (keepRow (some [(("cls"), ("1"))]))) imgs)
    ∧ (∃ imgs,
      LMDBFileStorageReader.load_signals_from_csv
          [ ((parsePath ("d.csv")),
              .csv [[("seg_map"), ("cls")], [("a.png"), ("0")], [("b.png"), ("1")]]),
            ((parsePath ("a.png")), .image ⟨5, 7, 3⟩),
            ((parsePath ("b.png")), .image ⟨2, 3, 3⟩) ]
          ("d.csv") ("seg_map") 1 (some [(("cls"), ("1"))])
        = .ok imgs
      ∧ imgs.length
          = (([[(("seg_map"), ("a.png")), (("cls"), ("0"))],
               [(("seg_map"), ("b.png")), (("cls"), ("1"))]] : List Row).filter
              (keepRow (some [(("cls"), ("1"))]))).length
      ∧ List.Forall₂
          (fun r img =>
            LMDBFileStorageReader.processRow
              [ ((parsePath ("d.csv")),
                  .csv [[("seg_map"), ("cls")], [("a.png"), ("0")], [("b.png"), ("1")]]),
                ((parsePath ("a.png")), .image ⟨5, 7, 3⟩),
                ((parsePath ("b.png")), .image ⟨2, 3, 3⟩) ]
              ("d.csv") ("seg_map") 1 r = .ok img)
          (([[(("seg_map"), ("a.png")), (("cls"), ("0"))],
             [(("seg_map"), ("b.png")), (("cls"), ("1"))]] : List Row).filter
            (keepRow (some [(("cls"), ("1"))]))) imgs) :=
  claim_C3_signal_count_order (parsePath ("/R"))
    [ ((parsePath ("/R/d.csv")),
        .csv [[("seg_map"), ("cls")], [("a.png"), ("0")], [("b.png"), ("1")]]),
      ((parsePath ("/R/a.png")), .image ⟨5, 7, 3⟩),
      ((parsePath ("/R/b.png")), .image ⟨2, 3, 3⟩) ]
    [ ((parsePath ("d.csv")),
        .csv [[("seg_map"), ("cls")], [("a.png"), ("0")], [("b.png"), ("1")]]),
      ((parsePath ("a.png")), .image ⟨5, 7, 3⟩),
      ((parsePath ("b.png")), .image ⟨2, 3, 3⟩) ]
    ("d.csv") ("seg_map") 1 (some [(("cls"), ("1"))])
    [[(("seg_map"), ("a.png")), (("cls"), ("0"))],
     [(("seg_map"), ("b.png")), (("cls"), ("1"))]]
    [[(("seg_map"), ("a.png")), (("cls"), ("0"))],
     [(("seg_map"), ("b.png")), (("cls"), ("1"))]]
    (by decide) (by decide) (by decide) (by decide)

/-- Claim C8: for both reader variants, a successful `load_image` with
`channels = 1` returns a single-channel (luminance) image, and with any
other `channels` value a three-channel (color) image. -/
theorem claim_C8_channel_depth (root : PurePath) (fs storage : FS) (path : String)
    (channels : Nat) (imgF imgL : PILImage)
    (hF : (FileSystemReader.load_image root fs path channels).result = .ok imgF)
    (hL : (LMDBFileStorageReader.load_image storage path channels).result = .ok imgL) :
    imgF.channels = (if channels = 1 then 1 else 3)
    ∧ imgL.channels = (if channels = 1 then 1 else 3) := by
  obtain ⟨img1, _, h1⟩ := fs_load_image_ok root fs path channels imgF hF
  obtain ⟨img2, _, h2⟩ := lmdb_load_image_ok storage path channels imgL hL
  subst h1 h2
  constructor <;> by_cases hch : channels = 1 <;>
    simp [hch, PILImage.convert]

/-- Claim C8 witness: a 3-channel source image loaded with `channels = 1`
from both backends. -/
theorem claim_C8_witness :
    (⟨4, 6, 1⟩ : PILImage).channels = (if 1 = 1 then 1 else 3)
    ∧ (⟨4, 6, 1⟩ : PILImage).channels = (if 1 = 1 then 1 else 3) :=
  claim_C8_channel_depth (parsePath ("/R"))
    [((parsePath ("/R/p.png")), .image ⟨4, 6, 3⟩)]
    [((parsePath ("p.png")), .image ⟨4, 6, 3⟩)]
    ("p.png") 1 ⟨4, 6, 1⟩ ⟨4, 6, 1⟩ (by decide) (by decide)

/-- Claim C9: for both reader variants, on a path holding a valid image
`get_image_size` returns exactly the `(width, height)` pair of the image
that `load_image` fully decodes (channel conversion preserves the
dimensions). -/
theorem claim_C9_size_agrees (root : PurePath) (fs storage : FS) (path : String)
    (channels : Nat) (imgF imgL : PILImage)
    (hF : (FileSystemReader.load_image root fs path channels).result = .ok imgF)
    (hL : (LMDBFileStorageReader.load_image storage path channels).result = .ok imgL) :
    FileSystemReader.get_image_size root fs path = .ok (imgF.width, imgF.height)
    ∧ (LMDBFileStorageReader.get_image_size storage path).result
        = .ok (imgL.width, imgL.height) := by
  obtain ⟨img1, hc1, h1⟩ := fs_load_image_ok root fs path channels imgF hF
  obtain ⟨img2, hc2, h2⟩ := lmdb_load_image_ok storage path channels imgL hL
  subst h1 h2
  constructor
  · unfold FileSystemReader.get_image_size
    simp only [hc1, decodeImage]
    by_cases hch : channels = 1 <;> simp [hch, convert_width, convert_height]
  · unfold LMDBFileStorageReader.get_image_size LMDBFileStorage.open_file
    simp only [hc2, decodeImage]
    by_cases hch : channels = 1 <;> simp [hch, convert_width, convert_height]

/-- Claim C9 witness: a 4×6 image on both backends, loaded with
`channels = 3`. -/
theorem claim_C9_witness :
    FileSystemReader.get_image_size (parsePath ("/R"))
        [((parsePath ("/R/q.png")), .image ⟨4, 6, 1⟩)] ("q.png")
      = .ok ((⟨4, 6, 3⟩ : PILImage).width, (⟨4, 6, 3⟩ : PILImage).height)
    ∧ (LMDBFileStorageReader.get_image_size
        [((parsePath ("q.png")), .image ⟨4, 6, 1⟩)] ("q.png")).result
      = .ok ((⟨4, 6, 3⟩ : PILImage).width, (⟨4, 6, 3⟩ : PILImage).height) :=
  claim_C9_size_agrees (parsePath ("/R"))
    [((parsePath ("/R/q.png")), .image ⟨4, 6, 1⟩)]
    [((parsePath ("q.png")), .image ⟨4, 6, 1⟩)]
    ("q.png") 3 ⟨4, 6, 3⟩ ⟨4, 6, 3⟩ (by decide) (by decide)

/-- Claim C10 counterexample.  The claim: an absolute column value (or one
with enough `..` components to leave the root) makes
`FileSystemReader.load_signals_from_csv` fail with a path-rebasing
(`relative_to`) error.  In the code `relative_to` is purely lexical: with
root `/R` and CSV `/R/sub/data.csv`, the absolute column value
`/R/pics/a.png` joins to `/R/pics/a.png`, which still extends the root, so
`relative_to` succeeds and the call returns the image — no rebasing error is
raised for this absolute path. -/
theorem claim_C10_counterexample :
    FileSystemReader.load_signals_from_csv (parsePath ("/R"))
      [ ((parsePath ("/R/sub/data.csv")), .csv [[("seg_map")], [("/R/pics/a.png")]]),
        ((parsePath ("/R/pics/a.png")), .image ⟨5, 7, 3⟩) ]
      ("sub/data.csv") ("seg_map") 1 none
    = .ok [⟨5, 7, 1⟩] := by
  decide

/-- Claim C10 (amended): the re-basing step fails — with a
`ValueError`-kind error, which is neither `NotFound` nor `DecodeError` —
exactly when the joined path does not lexically extend the root, and it does
so before any attempt to open the referenced image (the per-row result is
the same for every filesystem content, and an entire call whose first CSV
row trips the failure aborts with `ValueError`).  Because the check is
lexical, an absolute column value fails only when it does not itself start
with the root, and `..` components — kept literally by pathlib — never
trigger the failure by themselves. -/
theorem claim_C10_amended (root : PurePath) (csv_path column_name v : String)
    (channels : Nat) (row : Row)
    (hv : dictGet row column_name = some v)
    (hrel : (((root.joinStr csv_path).parent).joinStr v).relative_to root = none) :
    (∀ fs : FS,
      FileSystemReader.processRow root fs csv_path column_name channels row
        = .error .valueError)
    ∧ (∀ (fs : FS) (rest : List Row),
        FileSystemReader.read_csv_file root fs csv_path = .ok (row :: rest) →
        FileSystemReader.load_signals_from_csv root fs csv_path column_name channels none
          = .error .valueError)
    ∧ Err.valueError ≠ Err.notFound ∧ Err.valueError ≠ Err.decodeError := by
  have hproc : ∀ fs : FS,
      FileSystemReader.processRow root fs csv_path column_name channels row
        = .error .valueError := by
    intro fs
    unfold FileSystemReader.processRow
    simp only [hv, hrel]
  refine ⟨hproc, ?_, by decide, by decide⟩
  intro fs rest hread
  unfold FileSystemReader.load_signals_from_csv
  rw [hread]
  have hk : keepRow none row = true := rfl
  simp only [signalsLoop, hk, if_pos, hproc fs]

/-- Claim C10 amended-theorem witness: root `/R`, CSV `sub/data.csv`, and
the absolute column value `/X/a.png`, which does not start with the root. -/
theorem claim_C10_witness :
    (∀ fs : FS,
      FileSystemReader.processRow (parsePath ("/R")) fs ("sub/data.csv") ("seg_map") 1
          [(("seg_map"), ("/X/a.png"))]
        = .error .valueError)
    ∧ (∀ (fs : FS) (rest : List Row),
        FileSystemReader.read_csv_file (parsePath ("/R")) fs ("sub/data.csv")
            = .ok ([(("seg_map"), ("/X/a.png"))] :: rest) →
        FileSystemReader.load_signals_from_csv (parsePath ("/R")) fs ("sub/data.csv")
            ("seg_map") 1 none
          = .error .valueError)
    ∧ Err.valueError ≠ Err.notFound ∧ Err.valueError ≠ Err.decodeError :=
  claim_C10_amended (parsePath ("/R")) ("sub/data.csv") ("seg_map") ("/X/a.png") 1
    [(("seg_map"), ("/X/a.png"))] (by decide) (by decide)

/-- Claim C4: for the Filesystem reader with any root `R`, a CSV at
`R/sub/data.csv` whose row's `seg_map` value is `masks/a.png` makes
`load_signals_from_csv` load exactly the image stored at
`R/sub/masks/a.png`: the value is resolved against the CSV's parent
directory `R/sub`, re-based to the root-relative path `sub/masks/a.png`,
and loaded through `load_image` back at `R/sub/masks/a.png`. -/
theorem claim_C4_rebase_resolution (root : PurePath) (img : PILImage) (channels : Nat) :
    FileSystemReader.load_signals_from_csv root
      [ ((root.joinStr ("sub/data.csv")), .csv [[("seg_map")], [("masks/a.png")]]),
        ((root.joinStr ("sub/masks/a.png")), .image img) ]
      ("sub/data.csv") ("seg_map") channels none
    = .ok [if channels = 1 then img.convert ("L") else img.convert ("RGB")] := by
  obtain ⟨ab, parts⟩ := root
  have hp1 : parsePath ("sub/data.csv") = ⟨false, [("sub"), ("data.csv")]⟩ := by decide
  have hp2 : parsePath ("sub/masks/a.png") = ⟨false, [("sub"), ("masks"), ("a.png")]⟩ := by
    decide
  have hp3 : parsePath ("masks/a.png") = ⟨false, [("masks"), ("a.png")]⟩ := by decide
  have hj1 : PurePath.joinStr ⟨ab, parts⟩ ("sub/data.csv")
      = ⟨ab, parts ++ [("sub"), ("data.csv")]⟩ := by
    rw [PurePath.joinStr, hp1]
    rfl
  have hj2 : PurePath.joinStr ⟨ab, parts⟩ ("sub/masks/a.png")
      = ⟨ab, parts ++ [("sub"), ("masks"), ("a.png")]⟩ := by
    rw [PurePath.joinStr, hp2]
    rfl
  rw [hj1, hj2]
  have hne : (⟨ab, parts ++ [("sub"), ("data.csv")]⟩ : PurePath)
      ≠ ⟨ab, parts ++ [("sub"), ("masks"), ("a.png")]⟩ := by
    intro h
    have h2 : parts ++ [("sub"), ("data.csv")] = parts ++ [("sub"), ("masks"), ("a.png")] :=
      congrArg PurePath.parts h
    exact absurd (List.append_cancel_left h2) (by decide)
  have hgetcsv : fsGet
      [ ((⟨ab, parts ++ [("sub"), ("data.csv")]⟩ : PurePath),
          FileContent.csv [[("seg_map")], [("masks/a.png")]]),
        ((⟨ab, parts ++ [("sub"), ("masks"), ("a.png")]⟩ : PurePath), FileContent.image img) ]
      ⟨ab, parts ++ [("sub"), ("data.csv")]⟩
      = some (FileContent.csv [[("seg_map")], [("masks/a.png")]]) := by
    simp [fsGet]
  have hgetimg : fsGet
      [ ((⟨ab, parts ++ [("sub"), ("data.csv")]⟩ : PurePath),
          FileContent.csv [[("seg_map")], [("masks/a.png")]]),
        ((⟨ab, parts ++ [("sub"), ("masks"), ("a.png")]⟩ : PurePath), FileContent.image img) ]
      ⟨ab, parts ++ [("sub"), ("masks"), ("a.png")]⟩ = some (FileContent.image img) := by
    simp [fsGet, hne]
  have hread : FileSystemReader.read_csv_file ⟨ab, parts⟩
      [ ((⟨ab, parts ++ [("sub"), ("data.csv")]⟩ : PurePath),
          FileContent.csv [[("seg_map")], [("masks/a.png")]]),
        ((⟨ab, parts ++ [("sub"), ("masks"), ("a.png")]⟩ : PurePath), FileContent.image img) ]
      ("sub/data.csv") = .ok [[(("seg_map"), ("masks/a.png"))]] := by
    unfold FileSystemReader.read_csv_file
    rw [hj1, hgetcsv]
    rfl
  have hdg : dictGet [(("seg_map"), ("masks/a.png"))] ("seg_map")
      = some ("masks/a.png") := by decide
  have hparent : PurePath.parent ⟨ab, parts ++ [("sub"), ("data.csv")]⟩
      = ⟨ab, parts ++ [("sub")]⟩ := by
    unfold PurePath.parent
    congr 1
    rw [show parts ++ [("sub"), ("data.csv")] = (parts ++ [("sub")]) ++ [("data.csv")] by
      simp]
    simp
  have hjs : PurePath.joinStr ⟨ab, parts ++ [("sub")]⟩ ("masks/a.png")
      = ⟨ab, (parts ++ [("sub")]) ++ [("masks"), ("a.png")]⟩ := by
    rw [PurePath.joinStr, hp3]
    rfl
  have hrel : PurePath.relative_to
      ⟨ab, (parts ++ [("sub")]) ++ [("masks"), ("a.png")]⟩ ⟨ab, parts⟩
      = some ⟨false, [("sub"), ("masks"), ("a.png")]⟩ := by
    unfold PurePath.relative_to
    rw [if_pos]
    · congr 2
      rw [List.append_assoc]
      exact List.drop_left parts _
    · refine ⟨rfl, ?_⟩
      rw [List.append_assoc]
      exact partsPrefix_append_self parts _
  have hrender : PurePath.render ⟨false, [("sub"), ("masks"), ("a.png")]⟩
      = ("sub/masks/a.png") := by decide
  have hproc : FileSystemReader.processRow ⟨ab, parts⟩
      [ ((⟨ab, parts ++ [("sub"), ("data.csv")]⟩ : PurePath),
          FileContent.csv [[("seg_map")], [("masks/a.png")]]),
        ((⟨ab, parts ++ [("sub"), ("masks"), ("a.png")]⟩ : PurePath), FileContent.image img) ]
      ("sub/data.csv") ("seg_map") channels [(("seg_map"), ("masks/a.png"))]
      = .ok (if channels = 1 then img.convert ("L") else img.convert ("RGB")) := by
    unfold FileSystemReader.processRow
    simp only [hdg, hj1, hparent, hjs, hrel, hrender]
    unfold FileSystemReader.load_image
    simp only [hj2, hgetimg, decodeImage]
  unfold FileSystemReader.load_signals_from_csv
  rw [hread]
  simp [signalsLoop, keepRow, hproc]

end Spai
